import Mathlib

/-!
Shallow embedding of the ERWIQ Airlines support agent (app.py, utils.py,
tools.py, knowledge_base.py, config.py) and proofs about its chat fallback
orchestration, tool dispatch, logging/analytics, and retrieval engine.

Modelling conventions:
* Python machine floats (similarity scores, response times) are modelled as
  rationals; wall-clock timestamps are outside the embedding (log entries
  carry no timestamp field, elapsed times are supplied as parameters).
* Fallible Python code is embedded as `Except String α`; the error string
  names the Python exception that propagates.
* External collaborators (the three model backends, the OpenAI embedding
  endpoint, `json.loads`, the random generator, the image generator) are
  parameters of the embedded functions; everything else follows the source.
-/

/-! ## utils.py: audit log, analytics, notifications -/

/-- One entry of `audit_logs` as built by `log_interaction` (utils.py).
The `timestamp` field (wall clock) is outside the embedding. -/
structure LogEntry where
  user_message : String
  assistant_response : String
  tools_used : List String
  model : String
  response_time_ms : ℚ
  error : Option String
deriving DecidableEq

/-- The `analytics_data` dictionary (utils.py).  Python dicts keyed by
strings are modelled as insertion-ordered association lists. -/
structure Analytics where
  total_queries : ℕ
  tool_calls : List (String × ℕ)
  model_usage : List (String × ℕ)
  errors : ℕ
  avg_response_time : ℚ
  response_times : List ℚ
deriving DecidableEq

/-- One event recorded by `send_notification` (utils.py).  `message` is an
`Option` because the all-failed path of `chat_with_fallback` passes
`last_error`, which Python types as `Optional[str]`. -/
structure Notification where
  title : String
  message : Option String
  level : String
deriving DecidableEq

/-- The mutable module-level state of utils.py: `audit_logs`,
`analytics_data` and the record of notifications sent. -/
structure AppState where
  audit_logs : List LogEntry
  analytics : Analytics
  notifications : List Notification
deriving DecidableEq

def initAnalytics : Analytics :=
  { total_queries := 0, tool_calls := [], model_usage := [], errors := 0
    avg_response_time := 0, response_times := [] }

def initState : AppState :=
  { audit_logs := [], analytics := initAnalytics, notifications := [] }

/-- Python `d[k] = d.get(k, 0) + 1` on an insertion-ordered dict. -/
def dictBump (d : List (String × ℕ)) (k : String) : List (String × ℕ) :=
  if d.any (fun kv => kv.1 = k) then
    d.map (fun kv => if kv.1 = k then (kv.1, kv.2 + 1) else kv)
  else d ++ [(k, 1)]

/-- Python `d.get(k, 0)` on an insertion-ordered dict. -/
def dictGet (d : List (String × ℕ)) (k : String) : ℕ :=
  (((d.filter (fun kv => kv.1 = k)).head?).map Prod.snd).getD 0

/-- Truthiness of `Optional[str]` under Python `if error:`: `None` and the
empty string are falsy. -/
def pyTruthyStr : Option String → Bool
  | none => false
  | some s => decide (s ≠ "")

/-- Model of Python `round(x, 2)` on rationals (round to two decimal
places; the floating-point nearest-even tie rule is not modelled, no claim
depends on a tie). -/
def pyRound2 (q : ℚ) : ℚ := ((⌊q * 100 + 1/2⌋ : ℤ) : ℚ) / 100

/-- The truncation `assistant_response[:500] + "..."` applied by
`log_interaction` when the response exceeds 500 characters. -/
def truncResponse (s : String) : String :=
  if s.length > 500 then String.append (s.take 500) "..." else s

/-- Embedding of `log_interaction` (utils.py, lines 18-58): build the log
entry, append it to `audit_logs`, and update every analytics counter. -/
def log_interaction (user_message assistant_response : String)
    (tools_used : Option (List String)) (model : String)
    (response_time : ℚ) (error : Option String) (st : AppState) :
    LogEntry × AppState :=
  let entry : LogEntry :=
    { user_message := user_message
      assistant_response := truncResponse assistant_response
      tools_used := tools_used.getD []
      model := model
      response_time_ms := pyRound2 (response_time * 1000)
      error := error }
  let rts := st.analytics.response_times ++ [response_time]
  let an : Analytics :=
    { total_queries := st.analytics.total_queries + 1
      response_times := rts
      avg_response_time := rts.sum / (rts.length : ℚ)
      model_usage := dictBump st.analytics.model_usage model
      tool_calls := (tools_used.getD []).foldl dictBump st.analytics.tool_calls
      errors := st.analytics.errors + (if pyTruthyStr error then 1 else 0) }
  (entry, { st with audit_logs := st.audit_logs ++ [entry], analytics := an })

/-- Embedding of `send_notification` (utils.py, lines 202-232).  The
module-level `notification_callbacks` list is never populated in this
repository, so the observable effect is the recorded event itself. -/
def send_notification (title : String) (message : Option String)
    (level : String) (st : AppState) : AppState :=
  { st with notifications :=
      st.notifications ++ [{ title := title, message := message, level := level }] }

/-! ## app.py: fallback orchestration (`chat_with_fallback`) -/

/-- The `all_models` list of `chat_with_fallback` (app.py line 206). -/
def canonical_models : List String := ["openai", "claude", "gemini"]

/-- The attempt sequence built at app.py lines 203-209: start from the
preferred model, then append each canonical backend not already present. -/
def models_to_try (preferred_model : String) : List String :=
  canonical_models.foldl
    (fun acc m => if m ∈ acc then acc else acc ++ [m]) [preferred_model]

/-- The fixed degraded message returned when every backend fails
(app.py line 250). -/
def error_response_msg : String :=
  "I apologize, but I'm experiencing technical difficulties. Please try again later or contact ERWIQ Airlines support at 1800-ERWIQ-AIR."

/-- Outcomes of the three backend calls for one exchange.  `openai` is the
outcome of `chat_with_tools` (text and tools used); `claude` and `gemini`
are plain completions.  `Except.error e` models the backend raising with
message `e`. -/
structure Backends where
  openai : Except String (String × List String)
  claude : Except String String
  gemini : Except String String

/-- One iteration body of the model loop (app.py lines 219-228): which
attempt a given model name triggers; `none` models the `else: continue`
branch for unknown names.  A plain-completion success carries the
`tools_used = []` assignment of the source. -/
def attempt_model (b : Backends) (m : String) :
    Option (Except String (String × List String)) :=
  if m = "openai" then some b.openai
  else if m = "claude" then some (b.claude.map (fun r => (r, [])))
  else if m = "gemini" then some (b.gemini.map (fun r => (r, [])))
  else none

/-- The `for model in models_to_try` loop of `chat_with_fallback`
(app.py lines 214-258), including the all-failed epilogue: log the
degraded exchange with the default model name and zero response time,
fire one error-level notification carrying `last_error`, and return the
degraded triple. -/
def fallback_loop (b : Backends) (times : String → ℚ) (user_message : String) :
    List String → Option String → AppState →
    (String × String × List String) × AppState
  | [], lastError, st =>
    let p := log_interaction user_message error_response_msg none
      "gpt-4o-mini" 0 lastError st
    let st2 := send_notification "All Models Failed" lastError "error" p.2
    ((error_response_msg, "none", []), st2)
  | m :: rest, lastError, st =>
    match attempt_model b m with
    | none => fallback_loop b times user_message rest lastError st
    | some (Except.ok rt) =>
      let p := log_interaction user_message rt.1 (some rt.2) m (times m) none st
      ((rt.1, m, rt.2), p.2)
    | some (Except.error e) =>
      fallback_loop b times user_message rest (some e) st

/-- Embedding of `chat_with_fallback` (app.py lines 193-258).  `times m`
is the elapsed wall-clock time measured for a successful attempt of
backend `m`. -/
def chat_with_fallback (b : Backends) (times : String → ℚ)
    (user_message : String) (preferred_model : String) (st : AppState) :
    (String × String × List String) × AppState :=
  fallback_loop b times user_message (models_to_try preferred_model) none st

/-! ## app.py: the tool-calling loop (`chat_with_tools`) -/

def SYSTEM_MESSAGE : String := "You are a helpful and factual customer support assistant for **ERWIQ Airlines**.\nERWIQ Airlines was founded by **SANTHOSH KUMAR**.\n\nYour responsibilities:\n- Help customers with flight bookings, cancellations, and modifications\n- Provide accurate information about airline policies and procedures\n- Answer questions about baggage, check-in, refunds, and special services\n- Handle refund and compensation requests\n\nIMPORTANT: When customers ask about policies, rules, or procedures:\n- Use the search_airline_policies tool to find accurate information\n- Base your answers on the retrieved policy documents\n- Don't make up policies - if information isn't found, say so\n\nGuidelines:\n- Keep responses helpful and accurate\n- Quote specific rules and limits from policies when relevant\n- For complex issues, offer to escalate to a human agent\n- All prices are in Indian Rupees (₹)\n\nAvailable tools:\n- get_ticket_price: Check flight prices\n- get_flight_status: Get flight status updates\n- lookup_booking: Find booking details by PNR\n- process_refund: Process refund requests\n- get_destination_image: Generate destination images\n- search_airline_policies: Search FAQs and policies\n"


/-- One tool call requested by a model response (the
`tool_call.function.name` / `.arguments` / `.id` fields read at
app.py lines 168-180). -/
structure ToolCallReq where
  id : String
  name : String
  args : String
deriving DecidableEq

/-- One chat-completion response as consumed by `chat_with_tools`:
`finish_reason`, message text, and any requested tool calls. -/
structure ChatResponse where
  finish_reason : String
  content : String
  tool_calls : List ToolCallReq
deriving DecidableEq

/-- A conversation turn.  `assistantTurn` is the raw model message that
`chat_with_tools` appends before the tool-result turns; `toolResult` is a
`role = "tool"` message correlated by `tool_call_id`. -/
inductive Message where
  | system (content : String)
  | user (content : String)
  | assistant (content : String)
  | assistantTurn (resp : ChatResponse)
  | toolResult (tool_call_id : String) (content : String)
deriving DecidableEq

/-- One submission to the chat-completions endpoint: the messages sent and
whether the capability list (`tools=all_tools`) was advertised. -/
structure Submission where
  messages : List Message
  tools_advertised : Bool
deriving DecidableEq

/-- Embedding of `chat_with_tools` (app.py lines 144-190).  The OpenAI
client is a script mapping the index of the submission within this
exchange to the response; `execToolCall` is the tool executor
(`execute_tool_call`).  Besides the source's return value
(response text, tools used) the embedding returns the trace of
submissions made, so that the one-round cap is observable. -/
def chat_with_tools (script : ℕ → ChatResponse)
    (execToolCall : String → String → String)
    (user_message : String) (history : List Message) :
    (String × List String) × List Submission :=
  let m0 := [Message.system SYSTEM_MESSAGE] ++ history ++ [Message.user user_message]
  let r0 := script 0
  if r0.finish_reason = "tool_calls" then
    let tools_used := r0.tool_calls.map (fun tc => tc.name)
    let toolMsgs := r0.tool_calls.map
      (fun tc => Message.toolResult tc.id (execToolCall tc.name tc.args))
    let m1 := m0 ++ [Message.assistantTurn r0] ++ toolMsgs
    let r1 := script 1
    ((r1.content, tools_used), [⟨m0, true⟩, ⟨m1, false⟩])
  else
    ((r0.content, []), [⟨m0, true⟩])

/-! ## config.py: static data -/

/-- `TICKET_PRICES` (config.py lines 49-62), insertion order kept. -/
def TICKET_PRICES : List (String × List (String × ℕ)) := [
  ("mumbai", [("economy", 4999), ("business", 12999), ("first", 24999)]),
  ("delhi", [("economy", 5499), ("business", 14999), ("first", 28999)]),
  ("bangalore", [("economy", 4499), ("business", 11999), ("first", 22999)]),
  ("chennai", [("economy", 4299), ("business", 10999), ("first", 21999)]),
  ("kolkata", [("economy", 5999), ("business", 15999), ("first", 29999)]),
  ("hyderabad", [("economy", 4599), ("business", 11499), ("first", 22499)]),
  ("ahmedabad", [("economy", 3999), ("business", 9999), ("first", 19999)]),
  ("pune", [("economy", 3499), ("business", 8999), ("first", 17999)]),
  ("jaipur", [("economy", 4199), ("business", 10499), ("first", 20999)]),
  ("goa", [("economy", 5499), ("business", 13999), ("first", 26999)]),
  ("kochi", [("economy", 4799), ("business", 12499), ("first", 23999)]),
  ("lucknow", [("economy", 3999), ("business", 9499), ("first", 18999)])]

structure Flight where
  route : String
  departure : String
  status : String
deriving DecidableEq

/-- `FLIGHTS_DB` (config.py lines 65-74). -/
def FLIGHTS_DB : List (String × Flight) := [
  ("EQ101", ⟨"Mumbai → Delhi", "06:00", "On Time"⟩),
  ("EQ202", ⟨"Delhi → Bangalore", "09:30", "Delayed 30min"⟩),
  ("EQ303", ⟨"Chennai → Kolkata", "14:15", "On Time"⟩),
  ("EQ404", ⟨"Hyderabad → Mumbai", "18:45", "Cancelled"⟩),
  ("EQ505", ⟨"Bangalore → Goa", "11:00", "Boarding"⟩),
  ("EQ606", ⟨"Pune → Jaipur", "07:30", "On Time"⟩),
  ("EQ707", ⟨"Kochi → Chennai", "16:00", "Delayed 1hr"⟩),
  ("EQ808", ⟨"Ahmedabad → Lucknow", "20:30", "On Time"⟩)]

/-- One record of `BOOKINGS_DB`; the Python key `class` is rendered as the
field `cls` (reserved word in Lean). -/
structure Booking where
  passenger : String
  flight : String
  route : String
  date : String
  cls : String
  seat : String
  status : String
  meal : String
deriving DecidableEq

/-- `BOOKINGS_DB` (config.py lines 77-128). -/
def BOOKINGS_DB : List (String × Booking) := [
  ("ABC123", ⟨"Rahul Sharma", "EQ101", "Mumbai → Delhi", "2025-06-15",
    "Business", "2A", "Confirmed", "Vegetarian"⟩),
  ("XYZ789", ⟨"Priya Patel", "EQ303", "Chennai → Kolkata", "2025-06-20",
    "Economy", "24F", "Confirmed", "Standard"⟩),
  ("DEF456", ⟨"Amit Kumar", "EQ404", "Hyderabad → Mumbai", "2025-06-18",
    "First", "1A", "Cancelled - Refund Pending", "Jain"⟩),
  ("PQR999", ⟨"Sneha Reddy", "EQ505", "Bangalore → Goa", "2025-06-22",
    "Economy", "15C", "Confirmed", "Non-Vegetarian"⟩),
  ("LMN555", ⟨"Vikram Singh", "EQ606", "Pune → Jaipur", "2025-06-25",
    "Business", "4B", "Confirmed", "Vegetarian"⟩)]

/-! ## tools.py: tool handlers and the tool executor -/

/-- Python `str.title()` for the ASCII strings used here: a character is
upper-cased when the previous character is not alphabetic, lower-cased
otherwise. -/
def pyTitleAux : Bool → List Char → List Char
  | _, [] => []
  | prevAlpha, c :: cs =>
    (if prevAlpha then c.toLower else c.toUpper) :: pyTitleAux c.isAlpha cs

def pyTitle (s : String) : String := ⟨pyTitleAux false s.data⟩

/-- Digit grouping of Python `f"{n:,}"`: the argument is the reversed digit
list, the fuel bounds the recursion by the list length. -/
def insertCommasAux : ℕ → List Char → List Char
  | 0, ds => ds
  | _ + 1, [] => []
  | fuel + 1, ds =>
    if ds.length ≤ 3 then ds
    else ds.take 3 ++ [','] ++ insertCommasAux fuel (ds.drop 3)

/-- Python `f"{n:,}"` for a natural number. -/
def formatComma (n : ℕ) : String :=
  ⟨(insertCommasAux (toString n).data.length (toString n).data.reverse).reverse⟩

/-- Python `needle in hay` on strings (substring test). -/
def pyContains (hay needle : String) : Bool :=
  decide ((hay.splitOn needle).length ≠ 1)

/-- Lookup in an insertion-ordered dict modelled as an association list. -/
def assocGet {α : Type} (d : List (String × α)) (k : String) : Option α :=
  ((d.filter (fun kv => kv.1 = k)).head?).map Prod.snd

/-- Python dict assignment `d[k] = v` (overwrite or append). -/
def assocSet {α : Type} (d : List (String × α)) (k : String) (v : α) :
    List (String × α) :=
  if d.any (fun kv => kv.1 = k) then
    d.map (fun kv => if kv.1 = k then (kv.1, v) else kv)
  else d ++ [(k, v)]

/-- Embedding of `get_ticket_price` (tools.py lines 15-32). -/
def get_ticket_price (destination_city : String) (travel_class : String) : String :=
  let city := destination_city.toLower.trim
  let tc := travel_class.toLower.trim
  match assocGet TICKET_PRICES city with
  | none =>
    let available := String.intercalate ", " (TICKET_PRICES.map Prod.fst)
    "Sorry, we don't fly to " ++ destination_city ++
      ". Available destinations: " ++ available
  | some classes =>
    match assocGet classes tc with
    | none => "Invalid class. Choose from: economy, business, first"
    | some price =>
      "₹" ++ formatComma price ++ " for " ++ pyTitle tc ++ " class to " ++
        pyTitle destination_city

/-- Embedding of `get_flight_status` (tools.py lines 35-47). -/
def get_flight_status (flight_number : String) : String :=
  let fn := flight_number.toUpper.trim
  match assocGet FLIGHTS_DB fn with
  | none =>
    "Flight " ++ fn ++
      " not found. Please check the flight number. Our flights start with 'EQ' (e.g., EQ101, EQ202)."
  | some f =>
    "Flight " ++ fn ++ " (" ++ f.route ++ "): Departure " ++ f.departure ++
      ", Status: " ++ f.status

/-- Embedding of `lookup_booking` (tools.py lines 50-68). -/
def lookup_booking (pnr : String) : String :=
  let p := pnr.toUpper.trim
  match assocGet BOOKINGS_DB p with
  | none => "Booking " ++ p ++ " not found. Please check your booking reference."
  | some b =>
    "Booking " ++ p ++ ":\n- Passenger: " ++ b.passenger ++ "\n- Flight: " ++
      b.flight ++ " (" ++ b.route ++ ")\n- Date: " ++ b.date ++ "\n- Class: " ++
      b.cls ++ ", Seat: " ++ b.seat ++ "\n- Status: " ++ b.status ++
      "\n- Meal Preference: " ++ b.meal

/-- One record of the module-level `refund_requests` dict (tools.py). -/
structure RefundReq where
  pnr : String
  reason : String
  amount : ℤ
  status : String
deriving DecidableEq

/-- Embedding of `process_refund` (tools.py lines 71-109).  `rand` models
`random.randint(100000, 999999)` as `100000 + rand % 900000`; the updated
`refund_requests` dict is returned alongside the text. -/
def process_refund (rand : ℕ) (pnr : String) (reason : String)
    (refunds : List (String × RefundReq)) :
    String × List (String × RefundReq) :=
  let p := pnr.toUpper.trim
  match assocGet BOOKINGS_DB p with
  | none => ("Cannot process refund: Booking " ++ p ++ " not found.", refunds)
  | some b =>
    if pyContains b.status "Cancelled" then
      ("Booking " ++ p ++ " is already cancelled. Refund is being processed.",
        refunds)
    else
      let refund_ref := "REF" ++ toString (100000 + rand % 900000)
      let mult : ℚ :=
        if b.cls = "Economy" then 1
        else if b.cls = "Business" then 5/2
        else if b.cls = "First" then 5
        else 1
      let refund_amount : ℤ := ⌊(4999 : ℚ) * mult⌋
      ("Refund Request Processed:\n- Reference: " ++ refund_ref ++
        "\n- Booking: " ++ p ++ "\n- Passenger: " ++ b.passenger ++
        "\n- Refund Amount: ₹" ++ formatComma refund_amount.toNat ++
        "\n- Status: Approved - Will be credited in 5-7 business days\n- Reason: "
        ++ reason,
       assocSet refunds refund_ref ⟨p, reason, refund_amount, "Approved"⟩)

/-- Embedding of `get_destination_image` (tools.py lines 112-139).  The
DALL-E call and the file write are collaborators, summarised by `gen`;
`city` is `args.get("city")`, rendered as Python renders `None` when
absent.  The body's try/except always yields text. -/
def get_destination_image (city : Option String) (gen : Except String Unit) :
    String :=
  let cityStr := match city with | some s => s | none => "None"
  match gen with
  | Except.ok _ =>
    "I've generated a beautiful travel image of " ++ cityStr ++
      " for you! The image showcases the iconic landmarks and vibrant culture of this amazing Indian destination."
  | Except.error e =>
    "Sorry, I couldn't generate an image for " ++ cityStr ++ ": " ++ e

/-- A tool-arguments payload: either unparseable text (on which
`json.loads` raises `json.JSONDecodeError`) or a parsed JSON object whose
values, for the tools of this repository, are strings. -/
inductive ToolArgs where
  | malformed
  | obj (fields : List (String × String))
deriving DecidableEq

/-- Model of `json.loads` on a tool-arguments payload. -/
def json_loads : ToolArgs → Except String (List (String × String))
  | ToolArgs.malformed => Except.error "json.JSONDecodeError"
  | ToolArgs.obj fields => Except.ok fields

/-- JSON object field lookup (`args.get(k)` / `args[k]`); with duplicate
keys `json.loads` keeps the last one. -/
def lookupStr (kvs : List (String × String)) (k : String) : Option String :=
  ((kvs.filter (fun kv => kv.1 = k)).getLast?).map Prod.snd

/-- Whether Python `f(**args)` binds without a `TypeError` for a function
whose keyword parameters are `allowed` and whose parameters without a
default are `required`. -/
def kwargsOk (kvs : List (String × String)) (allowed required : List String) :
    Bool :=
  kvs.all (fun kv => allowed.contains kv.1) &&
    required.all (fun k => kvs.any (fun kv => kv.1 = k))

/-- The tool names dispatched by `execute_tool` (tools.py lines 247-264). -/
def registered_tools : List String :=
  ["get_ticket_price", "get_flight_status", "lookup_booking", "process_refund",
   "get_destination_image"]

/-- For each handler invoked as `f(**args)` by `execute_tool`, its keyword
parameters and its parameters without a default (tools.py lines 15, 35,
50, 71): the payload shapes Python binds without a `TypeError`.
`get_destination_image` is absent: it is invoked with `args.get("city")`,
not via `**args`, so no binding error is possible for it. -/
def tool_kwargs : List (String × (List String × List String)) :=
  [("get_ticket_price", (["destination_city", "travel_class"],
     ["destination_city"])),
   ("get_flight_status", (["flight_number"], ["flight_number"])),
   ("lookup_booking", (["pnr"], ["pnr"])),
   ("process_refund", (["pnr", "reason"], ["pnr", "reason"]))]

/-- Embedding of `execute_tool` (tools.py lines 247-264).
`json.loads(tool_arguments)` runs before any dispatch, so a malformed
payload raises; `f(**args)` raises `TypeError` on unknown or missing
fields; an unknown tool name yields the textual error result. -/
def execute_tool (tool_name : String) (tool_arguments : ToolArgs) (rand : ℕ)
    (refunds : List (String × RefundReq)) (imageGen : Except String Unit) :
    Except String (String × List (String × RefundReq)) :=
  match json_loads tool_arguments with
  | Except.error e => Except.error e
  | Except.ok args =>
    if tool_name = "get_ticket_price" then
      if kwargsOk args ["destination_city", "travel_class"] ["destination_city"] then
        match lookupStr args "destination_city" with
        | some city =>
          Except.ok
            (get_ticket_price city ((lookupStr args "travel_class").getD "economy"),
             refunds)
        | none => Except.error "TypeError"
      else Except.error "TypeError"
    else if tool_name = "get_flight_status" then
      if kwargsOk args ["flight_number"] ["flight_number"] then
        match lookupStr args "flight_number" with
        | some fn => Except.ok (get_flight_status fn, refunds)
        | none => Except.error "TypeError"
      else Except.error "TypeError"
    else if tool_name = "lookup_booking" then
      if kwargsOk args ["pnr"] ["pnr"] then
        match lookupStr args "pnr" with
        | some p => Except.ok (lookup_booking p, refunds)
        | none => Except.error "TypeError"
      else Except.error "TypeError"
    else if tool_name = "process_refund" then
      if kwargsOk args ["pnr", "reason"] ["pnr", "reason"] then
        match lookupStr args "pnr", lookupStr args "reason" with
        | some p, some r => Except.ok (process_refund rand p r refunds)
        | _, _ => Except.error "TypeError"
      else Except.error "TypeError"
    else if tool_name = "get_destination_image" then
      Except.ok (get_destination_image (lookupStr args "city") imageGen, refunds)
    else Except.ok ("Error: Unknown tool '" ++ tool_name ++ "'", refunds)

/-! ## knowledge_base.py: retrieval engine -/

/-- One knowledge-base document; `embedding` is `none` until the one-time
embedding assignment. -/
structure KBDoc where
  id : String
  category : String
  title : String
  content : String
  embedding : Option (List ℚ)
deriving DecidableEq


/-- The literal catalog assigned by `initialize_knowledge_base`
(knowledge_base.py lines 12-260), contents verbatim (including the
source file's mis-decoded currency signs). -/
def initial_catalog : List KBDoc := [
  ⟨"bag_001", "Baggage", "Carry-on Baggage Allowance", "Carry-on baggage allowance for ERWIQ Airlines:\n            - Economy Class: 1 carry-on bag (max 7kg), dimensions 55x40x20cm\n            - Business Class: 2 carry-on bags (max 10kg each)\n            - First Class: 2 carry-on bags (max 12kg each)\n            All passengers may also bring 1 personal item (laptop bag, purse, small backpack).\n            Carry-on must fit in overhead bin or under seat in front of you.", none⟩,
  ⟨"bag_002", "Baggage", "Checked Baggage Allowance", "Checked baggage allowance for ERWIQ Airlines:\n            - Economy Class: 1 bag, max 23kg, dimensions up to 158cm total\n            - Business Class: 2 bags, max 32kg each\n            - First Class: 3 bags, max 32kg each\n            Additional bags: â‚¹2,500 for domestic routes per extra bag.\n            Overweight bags (23-32kg): â‚¹1,500 extra fee.\n            Oversized bags (158-203cm): â‚¹3,000 extra fee.", none⟩,
  ⟨"bag_003", "Baggage", "Prohibited Items", "Items prohibited in carry-on baggage:\n            - Sharp objects: knives, scissors (blade >6cm), razor blades\n            - Sporting goods: cricket bats, hockey sticks, golf clubs\n            - Firearms and weapons of any kind\n            - Explosives and flammable items\n            - Liquids over 100ml (must be in clear plastic bag)\n            Items prohibited in all baggage:\n            - Explosives, fireworks, flares\n            - Lithium batteries over 160Wh\n            - Toxic substances, radioactive materials", none⟩,
  ⟨"checkin_001", "Check-in", "Online Check-in", "ERWIQ Airlines online check-in:\n            - Opens 48 hours before departure\n            - Closes 2 hours before departure for all flights\n            - Available at erwiqairlines.com or ERWIQ Airlines mobile app\n            - Select seats, add bags, and get digital boarding pass\n            - Passengers with checked bags must still visit bag drop counter\n            - Web check-in available in Hindi, English, and regional languages", none⟩,
  ⟨"checkin_002", "Check-in", "Airport Check-in Deadlines", "Airport check-in counter deadlines:\n            - Domestic flights: Counter closes 45 minutes before departure\n            - Metro routes (Mumbai-Delhi, Delhi-Bangalore): Counter closes 60 minutes before\n            - First/Business class: Dedicated counters with priority service at all major airports\n            - Bag drop for online check-in: Closes 45 minutes before all flights\n            Passengers arriving after deadline may be denied boarding without refund.", none⟩,
  ⟨"booking_001", "Booking", "Ticket Types and Flexibility", "ERWIQ Airlines ticket types:\n            - Saver Fare: No changes allowed, no refund. Seat assigned at check-in. Lowest price.\n            - Flexi Fare: Changes allowed with â‚¹2,000 fee. Refund as travel credit minus â‚¹2,500 fee.\n            - Premium Fare: Free changes up to 24 hours before departure, full refund available.\n            - Business Fare: Free unlimited changes, full refund anytime.\n            - First Class: Free unlimited changes, full refund anytime, dedicated support line.", none⟩,
  ⟨"booking_002", "Booking", "24-Hour Cancellation Policy", "ERWIQ Airlines 24-hour free cancellation:\n            - All tickets booked directly with ERWIQ Airlines can be cancelled within 24 hours of booking for full refund\n            - Flight must be at least 7 days away from departure\n            - Refund processed to original payment method within 7-10 business days\n            - UPI refunds processed within 24-48 hours\n            - This policy applies to all fare types including Saver Fare\n            - Does not apply to tickets booked through third-party websites like MakeMyTrip, Goibibo", none⟩,
  ⟨"booking_003", "Booking", "Refund Processing Time", "Refund processing times at ERWIQ Airlines:\n            - Credit card refunds: 7-10 business days\n            - Debit card refunds: 10-14 business days\n            - UPI refunds: 24-48 hours\n            - Net banking: 5-7 business days\n            - Travel credit: Issued immediately, valid for 12 months\n            Refunds are processed to original form of payment only.\n            For booking modifications, contact our support at 1800-ERWIQ-AIR (toll-free).", none⟩,
  ⟨"special_001", "Special Services", "Traveling with Pets", "ERWIQ Airlines pet policy:\n            - Small pets (dogs, cats under 8kg): Allowed in cabin, â‚¹3,500 each way\n            - Pet must fit in carrier under seat (max 46x28x24cm)\n            - Larger pets: Must travel in cargo hold, â‚¹7,500 each way\n            - Service animals: Travel free in cabin with valid documentation\n            - Book pet travel at least 48 hours before departure\n            - Maximum 2 pets per passenger, 4 pets per flight\n            - Pets not allowed on flights under 2 hours duration\n            - Health certificate required, issued within 10 days of travel", none⟩,
  ⟨"special_002", "Special Services", "Unaccompanied Minors", "Unaccompanied minor service (UM Service):\n            - Available for children ages 5-14 traveling alone\n            - Children 15-17 may use service optionally\n            - Fee: â‚¹3,000 each way for all domestic routes\n            - Includes dedicated staff escort through airport and flight\n            - Must be booked at least 48 hours in advance by calling customer care\n            - Child delivered only to pre-authorized adult with valid government ID (Aadhaar/PAN/Passport)\n            - Not available on flights with layover over 2 hours\n            - Special meals for children available on request", none⟩,
  ⟨"special_003", "Special Services", "Wheelchair and Mobility Assistance", "Mobility assistance at ERWIQ Airlines:\n            - Wheelchair assistance: Free of charge, request when booking or at least 48 hours before\n            - Types: WCHR (to/from gate), WCHS (to/from seat), WCHC (full assistance)\n            - Personal wheelchairs: Transported free as checked item\n            - Electric wheelchairs/scooters: Accepted, must notify 48 hours ahead for battery handling\n            - Stretcher service available on select routes (advance booking required)\n            - Priority boarding for passengers needing extra time\n            - All major Indian airports have accessibility features", none⟩,
  ⟨"loyalty_001", "Loyalty", "ERWIQ Wings Rewards Program", "ERWIQ Wings loyalty program:\n            - Earn 10 Wings points per â‚¹100 spent on flights\n            - Business class: Earn 15 Wings points per â‚¹100\n            - First class: Earn 20 Wings points per â‚¹100\n            - Points valid for 24 months from last activity\n            - Redeem for flights starting at 5,000 points one-way (short routes)\n            - Status tiers: Silver (10k points), Gold (25k), Platinum (50k), Diamond (100k)\n            - Earn bonus points with ERWIQ co-branded credit cards (HDFC, ICICI, SBI)\n            - Transfer points from partner hotels and banks", none⟩,
  ⟨"loyalty_002", "Loyalty", "Elite Status Benefits", "ERWIQ Wings Elite status benefits:\n            Silver (10k points/year):\n            - Priority check-in, 1 free checked bag, priority boarding\n            Gold (25k points/year):\n            - Above + complimentary seat selection, 2 free checked bags, lounge access (2 visits/year)\n            Platinum (50k points/year):\n            - Above + unlimited lounge access, complimentary upgrades when available, dedicated helpline\n            Diamond (100k points/year):\n            - Above + guaranteed upgrades, free companion ticket annually, exclusive airport meet & greet at metros", none⟩,
  ⟨"delay_001", "Delays", "Flight Delay Compensation", "ERWIQ Airlines delay compensation policy (as per DGCA guidelines):\n            For delays within airline control:\n            - 2+ hour delay: Refreshments (snacks and beverages)\n            - 4+ hour delay: Meal voucher (â‚¹500) + rebooking on next available flight\n            - 6+ hour delay: Full refund option or hotel accommodation if overnight\n            For weather or ATC delays:\n            - Rebooking on next available flight at no charge\n            - No meal or hotel compensation (outside airline control)\n            - ERWIQ will assist with alternate arrangements where possible", none⟩,
  ⟨"delay_002", "Delays", "Cancelled Flight Rights", "Your rights when ERWIQ Airlines cancels your flight:\n            - Full refund to original payment method, OR\n            - Rebooking on next available ERWIQ flight at no charge, OR\n            - Rebooking on partner airline if faster (subject to availability)\n            If cancellation is within 24 hours of departure:\n            - Meal vouchers provided during wait\n            - Hotel accommodation if overnight wait required (for different-city connections)\n            - Transportation to/from hotel arranged by ERWIQ\n            For cancellations within airline control, compensation of â‚¹5,000 for delays over 6 hours.\n            Contact: 1800-ERWIQ-AIR or visit nearest ERWIQ counter.", none⟩,
  ⟨"india_001", "India Specific", "Valid ID Requirements", "Valid ID for domestic travel on ERWIQ Airlines:\n            Accepted government-issued photo IDs:\n            - Aadhaar Card (most preferred)\n            - Passport\n            - PAN Card\n            - Voter ID\n            - Driving License\n            - Government employee ID\n            - Student ID with photo (for students under 18)\n            For children under 5: Birth certificate with parent's ID\n            DigiLocker documents accepted at all airports\n            ID must match name on booking exactly", none⟩,
  ⟨"india_002", "India Specific", "Payment Options", "Payment options for ERWIQ Airlines bookings:\n            - All major credit cards (Visa, Mastercard, RuPay, Amex)\n            - Debit cards with 3D secure\n            - UPI (Google Pay, PhonePe, Paytm, BHIM)\n            - Net Banking (all major banks)\n            - EMI options available on bookings above â‚¹5,000 (select banks)\n            - ERWIQ Wallet (preloaded wallet with 2% bonus)\n            - Corporate billing for business accounts\n            All payments secured with Indian banking standards and RBI guidelines", none⟩]

/-- Embedding of `initialize_knowledge_base` (knowledge_base.py
lines 12-260): reset the global document set to the literal catalog. -/
def initialize_knowledge_base : List KBDoc := initial_catalog

/-- A scored search result (`{'document': doc, 'score': similarity}`). -/
structure Scored where
  document : KBDoc
  score : ℚ
deriving DecidableEq

/-- The order realised by CPython's `results.sort(key=..., reverse=True)`
on the document list paired with its insertion index: a stable descending
sort by score is exactly the sort by score descending, insertion index
ascending. -/
def rankLe (a b : ℕ × Scored) : Prop :=
  b.2.score < a.2.score ∨ (a.2.score = b.2.score ∧ a.1 ≤ b.1)

instance : DecidableRel rankLe := fun a b => by
  unfold rankLe; exact inferInstance

instance : IsTotal (ℕ × Scored) rankLe := by
  constructor
  intro a b
  rcases lt_trichotomy a.2.score b.2.score with h | h | h
  · exact Or.inr (Or.inl h)
  · rcases Nat.le_total a.1 b.1 with h2 | h2
    · exact Or.inl (Or.inr ⟨h, h2⟩)
    · exact Or.inr (Or.inr ⟨h.symm, h2⟩)
  · exact Or.inl (Or.inl h)

instance : IsTrans (ℕ × Scored) rankLe := by
  constructor
  intro a b c hab hbc
  rcases hab with h1 | ⟨e1, i1⟩
  · rcases hbc with h2 | ⟨e2, _⟩
    · exact Or.inl (h2.trans h1)
    · exact Or.inl (e2 ▸ h1)
  · rcases hbc with h2 | ⟨e2, i2⟩
    · exact Or.inl (e1 ▸ h2)
    · exact Or.inr ⟨e1.trans e2, i1.trans i2⟩

/-- The scored full scan of `search_knowledge_base` (knowledge_base.py
lines 310-316): one `{'document', 'score'}` record per document, in corpus
order.  `sim` abstracts `cosine_similarity(query_embedding, ·)`, whose
floating-point arithmetic is outside the embedding; a document without an
embedding would raise `KeyError` in the source and is outside the modelled
domain (`getD []`). -/
def scan_results (sim : List ℚ → List ℚ → ℚ) (queryEmbedding : List ℚ)
    (kb : List KBDoc) : List Scored :=
  kb.map (fun doc => ⟨doc, sim queryEmbedding (doc.embedding.getD [])⟩)

/-- The scan paired with insertion indices and stably sorted by descending
score (`results.sort(key=lambda x: x['score'], reverse=True)`). -/
def ranked_results (sim : List ℚ → List ℚ → ℚ) (queryEmbedding : List ℚ)
    (kb : List KBDoc) : List (ℕ × Scored) :=
  (scan_results sim queryEmbedding kb).enum.insertionSort rankLe

/-- Embedding of `search_knowledge_base` (knowledge_base.py
lines 300-319): empty when the corpus is empty or its first document has
no embedding, else the stably score-sorted scan truncated to `top_k`. -/
def search_knowledge_base (sim : List ℚ → List ℚ → ℚ)
    (queryEmbedding : List ℚ) (kb : List KBDoc) (top_k : ℕ) : List Scored :=
  match kb with
  | [] => []
  | d :: _ =>
    match d.embedding with
    | none => []
    | some _ =>
      ((ranked_results sim queryEmbedding kb).map Prod.snd).take top_k

/-- The relevance threshold 0.3 of `search_airline_policies`
(knowledge_base.py lines 331, 336), written with `mkRat` so that concrete
comparisons reduce in the kernel. -/
def kb_threshold : ℚ := mkRat 3 10

/-- The fixed "not found" message of `search_airline_policies`
(knowledge_base.py line 332). -/
def kb_not_found_msg : String :=
  "No relevant policy information found for this query. Please contact ERWIQ Airlines customer care at 1800-ERWIQ-AIR for assistance."

/-- The title+body block appended per sufficiently relevant result
(knowledge_base.py lines 337-338). -/
def policy_block (d : KBDoc) : String :=
  "**" ++ d.title ++ "**\n" ++ d.content ++ "\n\n"

/-- The header line of a successful policy answer
(knowledge_base.py line 334). -/
def policy_header : String := "Here's the relevant policy information:\n\n"

/-- Embedding of `search_airline_policies` (knowledge_base.py
lines 322-340): top-3 search; the fixed message when there is no result or
the top score is below 0.3, else the header followed by the block of each
result whose score is at least 0.3. -/
def search_airline_policies (sim : List ℚ → List ℚ → ℚ)
    (queryEmbedding : List ℚ) (kb : List KBDoc) : String :=
  let results := search_knowledge_base sim queryEmbedding kb 3
  match results.head? with
  | none => kb_not_found_msg
  | some top =>
    if top.score < kb_threshold then kb_not_found_msg
    else
      results.foldl
        (fun acc r =>
          if kb_threshold ≤ r.score then acc ++ policy_block r.document else acc)
        policy_header

/-- What the snapshot file `knowledge_base.json` holds: nothing, or some
contents. -/
inductive SnapshotFile where
  | absent
  | present (contents : String)
deriving DecidableEq

/-- Embedding of `load_knowledge_base` (knowledge_base.py lines 381-392).
`parseJson` abstracts `json.load`; the source's `try` narrows to
`except FileNotFoundError`, so only absence takes the build-fresh path
(re-initialise the catalog, report `false`); a present but unparseable
snapshot raises `json.JSONDecodeError`, which propagates.  On success the
parsed documents replace the global corpus and `true` is reported. -/
def load_knowledge_base (parseJson : String → Option (List KBDoc))
    (file : SnapshotFile) : Except String (Bool × List KBDoc) :=
  match file with
  | SnapshotFile.present s =>
    match parseJson s with
    | some kb => Except.ok (true, kb)
    | none => Except.error "json.JSONDecodeError"
  | SnapshotFile.absent => Except.ok (false, initialize_knowledge_base)

/-! ## Helper lemmas -/

lemma dictGet_cons_ne (hd : String × ℕ) (tl : List (String × ℕ)) (k : String)
    (h : ¬ hd.1 = k) : dictGet (hd :: tl) k = dictGet tl k := by
  simp [dictGet, List.filter_cons, h]

lemma dictGet_dictBump (d : List (String × ℕ)) (k : String) :
    dictGet (dictBump d k) k = dictGet d k + 1 := by
  induction d with
  | nil => simp [dictBump, dictGet]
  | cons hd tl ih =>
    by_cases hk : hd.1 = k
    · simp [dictBump, dictGet, hk]
    · have hba : dictBump (hd :: tl) k = hd :: dictBump tl k := by
        by_cases ha : tl.any (fun kv => kv.1 = k) <;> simp [dictBump, hk, ha]
      rw [hba, dictGet_cons_ne hd (dictBump tl k) k hk,
        dictGet_cons_ne hd tl k hk, ih]

lemma foldl_append_str (l : List String) (x : String) :
    l.foldl (fun r s => r ++ s) x = x ++ l.foldl (fun r s => r ++ s) "" := by
  induction l generalizing x with
  | nil => simp
  | cons hd tl ih =>
    rw [List.foldl_cons, List.foldl_cons, ih (x ++ hd), ih ("" ++ hd)]
    simp [String.append_assoc]

lemma join_cons (a : String) (l : List String) :
    String.join (a :: l) = a ++ String.join l := by
  simp only [String.join, List.foldl_cons]
  rw [foldl_append_str l ("" ++ a)]
  simp

lemma policy_foldl_join (l : List Scored) (acc : String) :
    l.foldl
      (fun acc r =>
        if kb_threshold ≤ r.score then acc ++ policy_block r.document else acc) acc
      = acc ++ String.join
          ((l.filter (fun r => decide (kb_threshold ≤ r.score))).map
            (fun r => policy_block r.document)) := by
  induction l generalizing acc with
  | nil => simp [String.join]
  | cons hd tl ih =>
    by_cases h : kb_threshold ≤ hd.score <;>
      simp [h, ih, join_cons, String.append_assoc]

lemma policy_header_append_ne (s : String) :
    ¬ policy_header ++ s = kb_not_found_msg := by
  intro h
  have h2 := congrArg String.data h
  rw [String.data_append] at h2
  have h3 := congrArg List.head? h2
  rw [List.head?_append] at h3
  have hh : (String.data policy_header).head? = some 'H' := rfl
  have hn : (String.data kb_not_found_msg).head? = some 'N' := rfl
  rw [hh, hn] at h3
  simp [Option.or] at h3

/-! ## Claim theorems -/

/-- C1: for every preferred backend, `chat_with_fallback` builds an attempt
sequence beginning with the preferred backend followed by the remaining
backends in the fixed canonical order (openai, claude, gemini), each
backend appearing exactly once; for preferred backend claude the sequence
is exactly [claude, openai, gemini]. -/
theorem fallback_sequence_order (p : String) (hp : p ∈ canonical_models) :
    models_to_try p = p :: canonical_models.filter (fun m => decide (m ≠ p)) ∧
    (models_to_try p).head? = some p ∧
    (models_to_try p).Nodup ∧
    models_to_try "claude" = ["claude", "openai", "gemini"] := by
  simp only [canonical_models, List.mem_cons, List.not_mem_nil, or_false] at hp
  rcases hp with rfl | rfl | rfl <;> exact ⟨by decide, by decide, by decide, by decide⟩

theorem fallback_sequence_order_witness :
    "claude" ∈ canonical_models ∧
    (models_to_try "claude" =
        "claude" :: canonical_models.filter (fun m => decide (m ≠ "claude")) ∧
      (models_to_try "claude").head? = some "claude" ∧
      (models_to_try "claude").Nodup ∧
      models_to_try "claude" = ["claude", "openai", "gemini"]) :=
  ⟨by decide, fallback_sequence_order "claude" (by decide)⟩

/-- C2: when all three backends raise, `chat_with_fallback` returns exactly
the fixed degraded message with backend identity "none" and empty
tools_used, and fires exactly one notification at error severity carrying
the last-seen error text (the error of the last backend attempted). -/
theorem all_backends_fail_degraded (eo ec eg : String) (times : String → ℚ)
    (msg preferred : String) (st : AppState)
    (hp : preferred ∈ canonical_models) :
    (chat_with_fallback ⟨Except.error eo, Except.error ec, Except.error eg⟩
        times msg preferred st).1 = (error_response_msg, "none", []) ∧
    (chat_with_fallback ⟨Except.error eo, Except.error ec, Except.error eg⟩
        times msg preferred st).2.notifications =
      st.notifications ++
        [⟨"All Models Failed", some (if preferred = "gemini" then ec else eg),
          "error"⟩] := by
  simp only [canonical_models, List.mem_cons, List.not_mem_nil, or_false] at hp
  have h1 : models_to_try "openai" = ["openai", "claude", "gemini"] := by decide
  have h2 : models_to_try "claude" = ["claude", "openai", "gemini"] := by decide
  have h3 : models_to_try "gemini" = ["gemini", "openai", "claude"] := by decide
  rcases hp with rfl | rfl | rfl <;>
    simp [chat_with_fallback, h1, h2, h3, fallback_loop, attempt_model,
      Except.map, log_interaction, send_notification]

theorem all_backends_fail_degraded_witness :
    "claude" ∈ canonical_models ∧
    ((chat_with_fallback ⟨Except.error "e1", Except.error "e2", Except.error "e3"⟩
        (fun _ => 0) "hi" "claude" initState).1 =
      (error_response_msg, "none", []) ∧
     (chat_with_fallback ⟨Except.error "e1", Except.error "e2", Except.error "e3"⟩
        (fun _ => 0) "hi" "claude" initState).2.notifications =
      initState.notifications ++
        [⟨"All Models Failed", some (if "claude" = "gemini" then "e2" else "e3"),
          "error"⟩]) :=
  ⟨by decide,
   all_backends_fail_degraded "e1" "e2" "e3" (fun _ => 0) "hi" "claude" initState
     (by decide)⟩

/-- C4 counterexample: with the Primary backend raising and the Secondary
succeeding, the audit log contains no failure record at all for openai
(the loop logs only the success), contradicting the claimed "exactly one
failure record for Primary". -/
theorem primary_fail_secondary_success_cex :
    ¬ ((chat_with_fallback
          ⟨Except.error "openai boom", Except.ok "claude reply", Except.ok "gemini"⟩
          (fun _ => 0) "hi" "openai" initState).2.audit_logs.countP
        (fun e => decide (e.model = "openai" ∧ e.error ≠ none)) = 1) := by
  decide

/-- C4 as amended: when the Primary backend (openai) raises and the
Secondary backend (claude) succeeds, `chat_with_fallback` returns backend
identity claude, and the audit log gains exactly one record for the
exchange: a success record (error absent) for claude; no failure record is
written for openai, whose failure is only printed. -/
theorem primary_fail_secondary_success (e r : String)
    (g : Except String String) (times : String → ℚ) (msg : String)
    (st : AppState) :
    (chat_with_fallback ⟨Except.error e, Except.ok r, g⟩ times msg "openai"
        st).1.2.1 = "claude" ∧
    (chat_with_fallback ⟨Except.error e, Except.ok r, g⟩ times msg "openai"
        st).2.audit_logs =
      st.audit_logs ++
        [{ user_message := msg, assistant_response := truncResponse r
           tools_used := [], model := "claude"
           response_time_ms := pyRound2 (times "claude" * 1000)
           error := none }] := by
  have h1 : models_to_try "openai" = ["openai", "claude", "gemini"] := by decide
  constructor <;>
    simp [chat_with_fallback, h1, fallback_loop, attempt_model, Except.map,
      log_interaction]

/-- C10: on the all-backends-failed path the audit record carries the
default model name "gpt-4o-mini" (the Primary backend's model) rather
than the "none" sentinel returned to the caller, and a zero response
time; consequently the per-backend usage counter for "gpt-4o-mini" is the
one incremented. -/
theorem all_fail_log_attribution (eo ec eg : String) (times : String → ℚ)
    (msg preferred : String) (st : AppState)
    (hp : preferred ∈ canonical_models) :
    (chat_with_fallback ⟨Except.error eo, Except.error ec, Except.error eg⟩
        times msg preferred st).1.2.1 = "none" ∧
    (chat_with_fallback ⟨Except.error eo, Except.error ec, Except.error eg⟩
        times msg preferred st).2.audit_logs =
      st.audit_logs ++
        [{ user_message := msg
           assistant_response := truncResponse error_response_msg
           tools_used := [], model := "gpt-4o-mini", response_time_ms := 0
           error := some (if preferred = "gemini" then ec else eg) }] ∧
    dictGet (chat_with_fallback
        ⟨Except.error eo, Except.error ec, Except.error eg⟩
        times msg preferred st).2.analytics.model_usage "gpt-4o-mini" =
      dictGet st.analytics.model_usage "gpt-4o-mini" + 1 := by
  simp only [canonical_models, List.mem_cons, List.not_mem_nil, or_false] at hp
  have h1 : models_to_try "openai" = ["openai", "claude", "gemini"] := by decide
  have h2 : models_to_try "claude" = ["claude", "openai", "gemini"] := by decide
  have h3 : models_to_try "gemini" = ["gemini", "openai", "claude"] := by decide
  have hz : pyRound2 (0 * 1000) = 0 := by norm_num [pyRound2]
  have hz0 : pyRound2 0 = 0 := by norm_num [pyRound2]
  rcases hp with rfl | rfl | rfl <;>
    simp [chat_with_fallback, h1, h2, h3, fallback_loop, attempt_model,
      Except.map, log_interaction, send_notification, hz, hz0, dictGet_dictBump]

theorem all_fail_log_attribution_witness :
    "openai" ∈ canonical_models ∧
    ((chat_with_fallback ⟨Except.error "a", Except.error "b", Except.error "c"⟩
        (fun _ => 0) "hi" "openai" initState).1.2.1 = "none" ∧
     (chat_with_fallback ⟨Except.error "a", Except.error "b", Except.error "c"⟩
        (fun _ => 0) "hi" "openai" initState).2.audit_logs =
      initState.audit_logs ++
        [{ user_message := "hi"
           assistant_response := truncResponse error_response_msg
           tools_used := [], model := "gpt-4o-mini", response_time_ms := 0
           error := some (if "openai" = "gemini" then "b" else "c") }] ∧
     dictGet (chat_with_fallback
        ⟨Except.error "a", Except.error "b", Except.error "c"⟩
        (fun _ => 0) "hi" "openai" initState).2.analytics.model_usage
        "gpt-4o-mini" =
      dictGet initState.analytics.model_usage "gpt-4o-mini" + 1) :=
  ⟨by decide,
   all_fail_log_attribution "a" "b" "c" (fun _ => 0) "hi" "openai" initState
     (by decide)⟩

/-- C9 counterexample: `log_interaction` guards the error counter with
Python truthiness (`if error:`), so supplying the non-null empty-string
error leaves the counter unchanged, contradicting "increased by one
exactly when a non-null error was supplied". -/
theorem log_interaction_empty_error_cex :
    (some "" : Option String) ≠ none ∧
    ¬ ((log_interaction "q" "r" none "m" 0 (some "") initState).2.analytics.errors
        = initState.analytics.errors + 1) := by
  constructor
  · decide
  · simp [log_interaction, initState, initAnalytics, pyTruthyStr]

/-- C9 as amended: every call to `log_interaction` preserves the analytics
invariant: afterwards total_queries equals the length of response_times,
avg_response_time equals the arithmetic mean of response_times, the errors
counter has increased by one exactly when a non-null, non-empty error
string was supplied (Python truthiness), and exactly one entry was
appended to the audit log. -/
theorem log_interaction_invariant (um ar : String)
    (tu : Option (List String)) (m : String) (rt : ℚ) (err : Option String)
    (st : AppState)
    (h : st.analytics.total_queries = st.analytics.response_times.length) :
    (log_interaction um ar tu m rt err st).2.analytics.total_queries =
      (log_interaction um ar tu m rt err st).2.analytics.response_times.length ∧
    (log_interaction um ar tu m rt err st).2.analytics.avg_response_time =
      (log_interaction um ar tu m rt err st).2.analytics.response_times.sum /
        ((log_interaction um ar tu m rt err st).2.analytics.response_times.length : ℚ) ∧
    (log_interaction um ar tu m rt err st).2.analytics.errors =
      st.analytics.errors + (if pyTruthyStr err then 1 else 0) ∧
    (log_interaction um ar tu m rt err st).2.audit_logs =
      st.audit_logs ++ [(log_interaction um ar tu m rt err st).1] ∧
    (log_interaction um ar tu m rt err st).2.audit_logs.length =
      st.audit_logs.length + 1 := by
  simp [log_interaction, h]

theorem log_interaction_invariant_witness :
    initState.analytics.total_queries =
      initState.analytics.response_times.length ∧
    ((log_interaction "q" "r" none "m" 0 (some "x") initState).2.analytics.total_queries =
      (log_interaction "q" "r" none "m" 0 (some "x") initState).2.analytics.response_times.length ∧
    (log_interaction "q" "r" none "m" 0 (some "x") initState).2.analytics.avg_response_time =
      (log_interaction "q" "r" none "m" 0 (some "x") initState).2.analytics.response_times.sum /
        ((log_interaction "q" "r" none "m" 0 (some "x") initState).2.analytics.response_times.length : ℚ) ∧
    (log_interaction "q" "r" none "m" 0 (some "x") initState).2.analytics.errors =
      initState.analytics.errors + (if pyTruthyStr (some "x") then 1 else 0) ∧
    (log_interaction "q" "r" none "m" 0 (some "x") initState).2.audit_logs =
      initState.audit_logs ++ [(log_interaction "q" "r" none "m" 0 (some "x") initState).1] ∧
    (log_interaction "q" "r" none "m" 0 (some "x") initState).2.audit_logs.length =
      initState.audit_logs.length + 1) :=
  ⟨by decide,
   log_interaction_invariant "q" "r" none "m" 0 (some "x") initState (by decide)⟩

/-- C3 counterexample: `execute_tool` runs `json.loads(tool_arguments)`
before any dispatch or guard, so a malformed payload raises
`json.JSONDecodeError` instead of yielding a textual error result. -/
theorem execute_tool_malformed_cex :
    execute_tool "get_ticket_price" ToolArgs.malformed 0 [] (Except.ok ()) =
      Except.error "json.JSONDecodeError" := rfl

/-- C3 as amended: an unregistered tool name with a parseable argument
payload yields the named textual error result ("Error: Unknown tool ...")
without raising; but parameter parsing failures are not converted to
textual error results: a malformed payload raises `json.JSONDecodeError`
before any dispatch, and for every handler bound via `f(**args)` a parsed
payload with an unknown field or a missing required field raises
`TypeError`; these exceptions propagate to the caller. -/
theorem execute_tool_unknown_textual_malformed_raises :
    (∀ (name : String) (kvs : List (String × String)) (rand : ℕ)
        (refunds : List (String × RefundReq)) (gen : Except String Unit),
      name ∉ registered_tools →
      execute_tool name (ToolArgs.obj kvs) rand refunds gen =
        Except.ok ("Error: Unknown tool '" ++ name ++ "'", refunds)) ∧
    (∀ (name : String) (rand : ℕ) (refunds : List (String × RefundReq))
        (gen : Except String Unit),
      execute_tool name ToolArgs.malformed rand refunds gen =
        Except.error "json.JSONDecodeError") ∧
    (∀ (name : String) (allowed required : List String),
      (name, (allowed, required)) ∈ tool_kwargs →
      ∀ (kvs : List (String × String)) (rand : ℕ)
        (refunds : List (String × RefundReq)) (gen : Except String Unit),
      kwargsOk kvs allowed required = false →
      execute_tool name (ToolArgs.obj kvs) rand refunds gen =
        Except.error "TypeError") := by
  refine ⟨?_, ?_, ?_⟩
  · intro name kvs rand refunds gen hname
    simp only [registered_tools, List.mem_cons, List.not_mem_nil, or_false,
      not_or] at hname
    obtain ⟨h1, h2, h3, h4, h5⟩ := hname
    simp [execute_tool, json_loads, h1, h2, h3, h4, h5]
  · intro name rand refunds gen
    rfl
  · intro name allowed required hmem kvs rand refunds gen hk
    simp only [tool_kwargs, List.mem_cons, List.not_mem_nil, or_false,
      Prod.mk.injEq] at hmem
    rcases hmem with ⟨rfl, rfl, rfl⟩ | ⟨rfl, rfl, rfl⟩ | ⟨rfl, rfl, rfl⟩ |
        ⟨rfl, rfl, rfl⟩ <;>
      simp [execute_tool, json_loads, hk]

theorem execute_tool_unknown_textual_malformed_raises_witness :
    "frobnicate" ∉ registered_tools ∧
    execute_tool "frobnicate" (ToolArgs.obj []) 0 [] (Except.ok ()) =
      Except.ok ("Error: Unknown tool '" ++ "frobnicate" ++ "'", []) ∧
    execute_tool "frobnicate" ToolArgs.malformed 0 [] (Except.ok ()) =
      Except.error "json.JSONDecodeError" ∧
    ("get_ticket_price",
      (["destination_city", "travel_class"], ["destination_city"])) ∈
        tool_kwargs ∧
    kwargsOk [("bogus_field", "x")] ["destination_city", "travel_class"]
      ["destination_city"] = false ∧
    execute_tool "get_ticket_price" (ToolArgs.obj [("bogus_field", "x")]) 0 []
        (Except.ok ()) = Except.error "TypeError" :=
  ⟨by decide,
   execute_tool_unknown_textual_malformed_raises.1 "frobnicate" [] 0 []
     (Except.ok ()) (by decide),
   execute_tool_unknown_textual_malformed_raises.2.1 "frobnicate" 0 []
     (Except.ok ()),
   by decide,
   by decide,
   execute_tool_unknown_textual_malformed_raises.2.2 "get_ticket_price"
     ["destination_city", "travel_class"] ["destination_city"] (by decide)
     [("bogus_field", "x")] 0 [] (Except.ok ()) (by decide)⟩

/-- C5: `chat_with_tools` makes at most two backend submissions per
exchange.  If the first response carries tool invocations, each is
resolved and its result appended, the conversation is re-submitted exactly
once more without re-advertising the capability list, and the second
response's text is returned as final with no condition on its
finish_reason (a second round of tool requests is never serviced);
otherwise the single response's text is returned after one submission. -/
theorem chat_with_tools_one_round_cap (script : ℕ → ChatResponse)
    (execToolCall : String → String → String) (msg : String)
    (history : List Message) :
    (chat_with_tools script execToolCall msg history).2.length ≤ 2 ∧
    ((script 0).finish_reason = "tool_calls" →
      (chat_with_tools script execToolCall msg history).1.1 =
        (script 1).content ∧
      (chat_with_tools script execToolCall msg history).1.2 =
        (script 0).tool_calls.map (fun tc => tc.name) ∧
      (chat_with_tools script execToolCall msg history).2.map
          (fun s => s.tools_advertised) = [true, false]) ∧
    (¬ (script 0).finish_reason = "tool_calls" →
      (chat_with_tools script execToolCall msg history).1.1 =
        (script 0).content ∧
      (chat_with_tools script execToolCall msg history).2.map
          (fun s => s.tools_advertised) = [true]) := by
  by_cases h : (script 0).finish_reason = "tool_calls" <;>
    simp [chat_with_tools, h]

theorem chat_with_tools_one_round_cap_witness :
    ((fun _ => ChatResponse.mk "tool_calls" "round text"
        [ToolCallReq.mk "id1" "lookup_booking" ""]) 0).finish_reason =
      "tool_calls" ∧
    ((chat_with_tools
        (fun _ => ChatResponse.mk "tool_calls" "round text"
          [ToolCallReq.mk "id1" "lookup_booking" ""])
        (fun _ _ => "tool result") "hi" []).1.1 =
      ((fun _ => ChatResponse.mk "tool_calls" "round text"
        [ToolCallReq.mk "id1" "lookup_booking" ""]) 1).content ∧
     (chat_with_tools
        (fun _ => ChatResponse.mk "tool_calls" "round text"
          [ToolCallReq.mk "id1" "lookup_booking" ""])
        (fun _ _ => "tool result") "hi" []).1.2 =
      ((fun _ => ChatResponse.mk "tool_calls" "round text"
        [ToolCallReq.mk "id1" "lookup_booking" ""]) 0).tool_calls.map
          (fun tc => tc.name) ∧
     (chat_with_tools
        (fun _ => ChatResponse.mk "tool_calls" "round text"
          [ToolCallReq.mk "id1" "lookup_booking" ""])
        (fun _ _ => "tool result") "hi" []).2.map
          (fun s => s.tools_advertised) = [true, false]) :=
  ⟨rfl,
   (chat_with_tools_one_round_cap
      (fun _ => ChatResponse.mk "tool_calls" "round text"
        [ToolCallReq.mk "id1" "lookup_booking" ""])
      (fun _ _ => "tool result") "hi" []).2.1 rfl⟩

lemma ranked_pairwise_rankLe (sim : List ℚ → List ℚ → ℚ) (qe : List ℚ)
    (kb : List KBDoc) :
    List.Pairwise rankLe (ranked_results sim qe kb) :=
  List.sorted_insertionSort rankLe _

lemma ranked_pairwise_ne (sim : List ℚ → List ℚ → ℚ) (qe : List ℚ)
    (kb : List KBDoc) :
    List.Pairwise (fun a b => a.1 ≠ b.1) (ranked_results sim qe kb) := by
  have hperm : (ranked_results sim qe kb).Perm
      ((scan_results sim qe kb).enum) := List.perm_insertionSort rankLe _
  have hnodup : (((scan_results sim qe kb).enum).map Prod.fst).Nodup := by
    rw [List.enum_map_fst]; exact List.nodup_range _
  have h2 : ((ranked_results sim qe kb).map Prod.fst).Nodup :=
    ((hperm.map Prod.fst).symm).nodup hnodup
  exact List.pairwise_map.mp h2

/-- C6: for every query embedding and every k, over a fixed corpus and a
fixed score function, `search_knowledge_base` returns at most k results,
sorted by descending similarity score; the stably sorted ranking breaks
score ties by original insertion order (strictly increasing indices on
equal scores); and the result is deterministic (two evaluations on the
same inputs are equal). -/
theorem search_kb_sorted_bounded (sim : List ℚ → List ℚ → ℚ) (qe : List ℚ)
    (kb : List KBDoc) (k : ℕ) :
    (search_knowledge_base sim qe kb k).length ≤ k ∧
    List.Pairwise (fun a b => b.score ≤ a.score)
      (search_knowledge_base sim qe kb k) ∧
    List.Pairwise
      (fun a b => b.2.score < a.2.score ∨ (a.2.score = b.2.score ∧ a.1 < b.1))
      (ranked_results sim qe kb) ∧
    search_knowledge_base sim qe kb k = search_knowledge_base sim qe kb k := by
  have hr := ranked_pairwise_rankLe sim qe kb
  have hne := ranked_pairwise_ne sim qe kb
  have hlex : List.Pairwise
      (fun (a b : ℕ × Scored) =>
        b.2.score < a.2.score ∨ (a.2.score = b.2.score ∧ a.1 < b.1))
      (ranked_results sim qe kb) := by
    refine List.Pairwise.imp ?_ (hr.and hne)
    rintro a b ⟨hle, hab⟩
    rcases hle with h | ⟨he, hi⟩
    · exact Or.inl h
    · exact Or.inr ⟨he, lt_of_le_of_ne hi hab⟩
  have hmap : List.Pairwise (fun (a b : Scored) => b.score ≤ a.score)
      ((ranked_results sim qe kb).map Prod.snd) := by
    refine List.pairwise_map.mpr (List.Pairwise.imp ?_ hr)
    rintro a b (h | ⟨he, _⟩)
    · exact le_of_lt h
    · exact le_of_eq he.symm
  refine ⟨?_, ?_, hlex, rfl⟩
  · rcases kb with _ | ⟨d, tl⟩
    · simp [search_knowledge_base]
    · rcases hemb : d.embedding with _ | e <;>
        simp [search_knowledge_base, hemb, List.length_take_le]
  · rcases kb with _ | ⟨d, tl⟩
    · simp [search_knowledge_base]
    · rcases hemb : d.embedding with _ | e
      · simp [search_knowledge_base, hemb]
      · have : search_knowledge_base sim qe (d :: tl) k =
            ((ranked_results sim qe (d :: tl)).map Prod.snd).take k := by
          simp [search_knowledge_base, hemb]
        rw [this]
        exact List.Pairwise.sublist (List.take_sublist _ _) hmap

/-- A concrete score function standing in for the embedded-query cosine
similarity when evaluating the retrieval pipeline on test corpora. -/
def sim_stub (_q e : List ℚ) : ℚ := if e = [1] then 1 else 0

/-- A two-document test corpus whose scores under `sim_stub` are 1 and 0:
the second top-3 result falls below the 0.3 threshold. -/
def c7_kb : List KBDoc :=
  [⟨"d1", "c", "T1", "B1", some [1]⟩, ⟨"d2", "c", "T2", "B2", some [0]⟩]

/-- The answer format asserted by the claim, rendered from the spec's
words: "formats the top-k results as concatenated title+body blocks" -
every top-k result contributes a block. -/
def spec_top_k_format (results : List Scored) : String :=
  results.foldl (fun acc r => acc ++ policy_block r.document) policy_header

/-- C7 counterexample: on a corpus where the top score passes the 0.3
threshold but another top-3 result does not, `search_airline_policies`
omits the sub-threshold result's block, so its output differs from the
claimed formatting of the top-k results. -/
theorem search_policies_topk_cex :
    search_airline_policies sim_stub [] c7_kb ≠
      spec_top_k_format (search_knowledge_base sim_stub [] c7_kb 3) := by
  decide

/-- C7 as amended: `search_airline_policies` returns the fixed "not found"
message exactly when the result set is empty or the top result's score is
below 0.3, and otherwise returns the header followed by the concatenated
title+body blocks of exactly those top-k results whose score is at least
0.3 (sub-threshold results among the top k are omitted). -/
theorem search_policies_answer_format (sim : List ℚ → List ℚ → ℚ)
    (qe : List ℚ) (kb : List KBDoc) :
    (search_airline_policies sim qe kb = kb_not_found_msg ↔
      (search_knowledge_base sim qe kb 3 = [] ∨
       ∃ top, (search_knowledge_base sim qe kb 3).head? = some top ∧
         top.score < kb_threshold)) ∧
    (∀ top, (search_knowledge_base sim qe kb 3).head? = some top →
      ¬ top.score < kb_threshold →
      search_airline_policies sim qe kb =
        policy_header ++ String.join
          (((search_knowledge_base sim qe kb 3).filter
              (fun r => decide (kb_threshold ≤ r.score))).map
            (fun r => policy_block r.document))) := by
  constructor
  · rcases hR : (search_knowledge_base sim qe kb 3).head? with _ | top
    · have hempty : search_knowledge_base sim qe kb 3 = [] :=
        List.head?_eq_none_iff.mp hR
      simp [search_airline_policies, hR, hempty]
    · by_cases h : top.score < kb_threshold
      · refine iff_of_true ?_ (Or.inr ⟨top, rfl, h⟩)
        simp [search_airline_policies, hR, h]
      · refine iff_of_false ?_ ?_
        · have hout : search_airline_policies sim qe kb =
              policy_header ++ String.join
                (((search_knowledge_base sim qe kb 3).filter
                    (fun r => decide (kb_threshold ≤ r.score))).map
                  (fun r => policy_block r.document)) := by
            simp [search_airline_policies, hR, h, policy_foldl_join]
          rw [hout]
          exact policy_header_append_ne _
        · rintro (hempty | ⟨t, ht, hlt⟩)
          · rw [hempty] at hR
            simp at hR
          · cases ht
            exact h hlt
  · intro top hR h
    simp [search_airline_policies, hR, h, policy_foldl_join]

theorem search_policies_answer_format_witness :
    (search_knowledge_base sim_stub [] c7_kb 3).head? =
      some ⟨⟨"d1", "c", "T1", "B1", some [1]⟩, 1⟩ ∧
    ¬ (Scored.mk ⟨"d1", "c", "T1", "B1", some [1]⟩ 1).score < kb_threshold ∧
    search_airline_policies sim_stub [] c7_kb =
      policy_header ++ String.join
        (((search_knowledge_base sim_stub [] c7_kb 3).filter
            (fun r => decide (kb_threshold ≤ r.score))).map
          (fun r => policy_block r.document)) :=
  ⟨by decide, by decide,
   (search_policies_answer_format sim_stub [] c7_kb).2
     ⟨⟨"d1", "c", "T1", "B1", some [1]⟩, 1⟩ (by decide) (by decide)⟩

/-- C8 counterexample: `load_knowledge_base` narrows its handler to
`FileNotFoundError`, so a present but unparseable snapshot raises
`json.JSONDecodeError` instead of failing soft to the build-fresh path. -/
theorem load_kb_malformed_cex :
    load_knowledge_base (fun _ => none) (SnapshotFile.present "not json") =
      Except.error "json.JSONDecodeError" := rfl

/-- C8 as amended: `load_knowledge_base` fails soft to the build-fresh
path only when the snapshot file is absent: then it does not raise,
repopulates the document set from the literal catalog and reports
failure so the caller recomputes embeddings.  It reports success exactly
when the snapshot parsed; when the snapshot is present but malformed
(unparseable) the parse error propagates as an exception. -/
theorem load_kb_paths (parseJson : String → Option (List KBDoc)) :
    load_knowledge_base parseJson SnapshotFile.absent =
      Except.ok (false, initialize_knowledge_base) ∧
    (∀ s kbv, parseJson s = some kbv →
      load_knowledge_base parseJson (SnapshotFile.present s) =
        Except.ok (true, kbv)) ∧
    (∀ s, parseJson s = none →
      load_knowledge_base parseJson (SnapshotFile.present s) =
        Except.error "json.JSONDecodeError") := by
  refine ⟨rfl, ?_, ?_⟩
  · intro s kbv hs
    simp [load_knowledge_base, hs]
  · intro s hs
    simp [load_knowledge_base, hs]

theorem load_kb_paths_witness :
    ((fun s => if s = "good" then some ([] : List KBDoc) else none) "good" =
      some ([] : List KBDoc)) ∧
    load_knowledge_base
        (fun s => if s = "good" then some ([] : List KBDoc) else none)
        (SnapshotFile.present "good") = Except.ok (true, []) ∧
    ((fun s => if s = "good" then some ([] : List KBDoc) else none) "bad" =
      (none : Option (List KBDoc))) ∧
    load_knowledge_base
        (fun s => if s = "good" then some ([] : List KBDoc) else none)
        (SnapshotFile.present "bad") =
      Except.error "json.JSONDecodeError" :=
  ⟨by decide,
   (load_kb_paths
      (fun s => if s = "good" then some ([] : List KBDoc) else none)).2.1
     "good" [] (by decide),
   by decide,
   (load_kb_paths
      (fun s => if s = "good" then some ([] : List KBDoc) else none)).2.2
     "bad" (by decide)⟩
